import Mathlib

/-!
Verification of the ytogether2 playback-synchronization protocol.

The development shallowly embeds the message handlers of the repository:

* `VideoSyncV2` embeds the current revision of
  `src/components/VideoSync.vue` (the part of the file after the revision
  separator): the peer-message switch (`handlePeerMessage`), the local
  Player callbacks (`onPlayerStateChange`, `onPlaybackRateChange`,
  `handleSeek`) and the drift-detection poll body installed by
  `setupSeekDetection`.
* `VideoSyncV1` embeds `syncPlayer` of the earlier revision of the same
  component (the part of the file before the separator), which applies a
  full `sync` snapshot to the local player.
* `PeerServiceDrone` embeds `src/utils/peerService.js` (the ScaleDrone
  based `PeerConnectionManager`): `send`, the `members`-event body of
  `joinRoom`, and `close`.
* `PeerServicePeerJS` embeds `send` of the PeerJS based variant of the
  connection manager.
* `Chat` embeds the chat handlers of `src/components/Chat.vue`.

Player state is modelled with exact rationals in place of JS floating
point numbers; each handler is a pure function from a state to a new
state together with the list of wire messages it sends via
`peerService.send` (and, for `syncPlayer`, the list of mutations it
applies to the local Player object, in application order).
-/

namespace YTogether

/-- A chat log entry as built by `addMessage` in `Chat.vue`:
`{ sender, content, timestamp }`. The JS `Date` timestamp is modelled as
a natural number. -/
structure ChatMsg where
  sender : String
  content : String
  timestamp : Nat
deriving DecidableEq

/-- The wire message vocabulary sent through `peerService.send` by the
components: playback mutations (`play`, `pause`, `seek`, `speedChange`),
snapshots (`sync`, `video_info`), the bootstrap requests, and the chat
messages. -/
inductive Msg where
  | play : Msg
  | pause : Msg
  | seek (time : ℚ) : Msg
  | speedChange (rate : ℚ) : Msg
  | sync (currentTime : ℚ) (playbackRate : ℚ) (paused : Bool) : Msg
  | videoInfo (videoId : String) (currentTime : ℚ) (playbackRate : ℚ) (paused : Bool) : Msg
  | requestVideoInfo : Msg
  | requestSync : Msg
  | chat (sender : String) (content : String) : Msg
  | chatHistory (messages : List ChatMsg) : Msg
deriving DecidableEq

/-- The four remote playback-mutation message types (`play`, `pause`,
`seek`, `speedChange`) that the `VideoSync` peer-message switch guards
with the `isSyncing` suppress-echo flag. -/
def Msg.isRemoteMutation : Msg → Bool
  | .play => true
  | .pause => true
  | .seek _ => true
  | .speedChange _ => true
  | _ => false

/-- JS `Math.abs` on exact rationals, written executably so concrete
states evaluate by kernel reduction. -/
def rabs (x : ℚ) : ℚ := if x < 0 then -x else x

/-- `rabs` agrees with the mathematical absolute value. -/
theorem rabs_eq_abs (x : ℚ) : rabs x = |x| := by
  unfold rabs
  by_cases h : x < 0
  · rw [if_pos h, abs_of_neg h]
  · rw [if_neg h, abs_of_nonneg (le_of_not_lt h)]

namespace VideoSyncV2

/-- The reactive state of the current revision of `VideoSync.vue`
together with the observable state of the embedded YouTube player:
`isSyncing` is the suppress-echo flag, `position`/`rate`/`playing`
mirror `getCurrentTime()`/`getPlaybackRate()`/`getPlayerState() ===
PLAYING`, and `lastSeekTime`/`lastCheckedTime`/`currentVideoId` are the
component refs of the same names. `hasPlayer`, `isPlayerReady` and
`isAPIReady` model the nullness/readiness guards the code checks. -/
structure SyncState where
  isSyncing : Bool
  position : ℚ
  rate : ℚ
  playing : Bool
  lastSeekTime : ℚ
  lastCheckedTime : ℚ
  currentVideoId : Option String
  hasPlayer : Bool
  isPlayerReady : Bool
  isAPIReady : Bool
deriving DecidableEq

/-- The suppression-window timer body: each mutation case of
`handlePeerMessage` schedules `isSyncing.value = false` after a 500 ms
settle delay; this function is that timer firing. -/
def settle (s : SyncState) : SyncState :=
  { s with isSyncing := false }

/-- Embedding of `handlePeerMessage` of the current revision of
`VideoSync.vue` (the `switch (data.type)` over `pause`, `play`, `seek`,
`speedChange`, `video_info`, `request_video_info`). Returns the updated
component/player state and the list of messages passed to
`peerService.send` while handling the message. The `video_info` case
models `loadVideo` as setting `currentVideoId`, and the deferred
`syncVideoState` callback as evaluated against the current state: note
that this callback sends `speedChange`/`seek`/`play`/`pause` messages to
the peers instead of mutating the local player. -/
def handlePeerMessage (s : SyncState) (m : Msg) : SyncState × List Msg :=
  match m with
  | .pause =>
      if s.isSyncing then (s, [])
      else ({ s with isSyncing := true, playing := false }, [])
  | .play =>
      if s.isSyncing then (s, [])
      else ({ s with isSyncing := true, playing := true }, [])
  | .seek t =>
      if s.isSyncing then (s, [])
      else
        ({ s with
            isSyncing := true
            position := if rabs (s.position - t) > 1/2 then t else s.position
            playing := true
            lastSeekTime := t }, [])
  | .speedChange r =>
      if s.isSyncing then (s, [])
      else ({ s with isSyncing := true, rate := r }, [])
  | .videoInfo vid t r p =>
      let s' := { s with currentVideoId := some vid }
      if s.isAPIReady && s.hasPlayer && s.isPlayerReady then
        (s', [Msg.speedChange r, Msg.seek t, if p then Msg.pause else Msg.play])
      else
        (s', [])
  | .requestVideoInfo =>
      match s.currentVideoId with
      | some vid =>
          if s.hasPlayer && s.isPlayerReady then
            (s, [Msg.videoInfo vid s.position s.rate (!s.playing)])
          else (s, [])
      | none => (s, [])
  | _ => (s, [])

/-- Embedding of `handleSeek`: broadcast the current position as a
`seek` message unless suppressed or the player is absent/not ready. -/
def handleSeek (s : SyncState) : List Msg :=
  if s.isSyncing || !s.hasPlayer || !s.isPlayerReady then []
  else [Msg.seek s.position]

/-- The YouTube player state values distinguished by
`onPlayerStateChange`. -/
inductive YTState where
  | playing : YTState
  | paused : YTState
  | buffering : YTState
  | other : YTState
deriving DecidableEq

/-- Embedding of `onPlayerStateChange`: suppressed entirely when
`isSyncing`; a PLAYING transition sends `play` then `handleSeek`'s
`seek`, records `Date.now()` (the `now` argument) in `lastSeekTime` and
the current position in `lastCheckedTime`; a PAUSED transition sends
`pause` then `handleSeek`'s `seek`; BUFFERING and other states send
nothing. -/
def onPlayerStateChange (s : SyncState) (e : YTState) (now : ℚ) : SyncState × List Msg :=
  if s.isSyncing then (s, [])
  else
    match e with
    | .playing =>
        ({ s with lastSeekTime := now, lastCheckedTime := s.position },
          [Msg.play] ++ handleSeek s)
    | .paused => (s, [Msg.pause] ++ handleSeek s)
    | _ => (s, [])

/-- Embedding of `onPlaybackRateChange`: broadcast a `speedChange` with
the player's current rate unless suppressed or the player is
absent/not ready. -/
def onPlaybackRateChange (s : SyncState) : List Msg :=
  if s.isSyncing || !s.hasPlayer || !s.isPlayerReady then []
  else [Msg.speedChange s.rate]

/-- Embedding of one firing of the drift-detection interval installed by
`setupSeekDetection`: bail out (without touching `lastCheckedTime`) when
the player is absent, not ready, or `isSyncing` is set; otherwise emit
`handleSeek`'s `seek` when the current position differs from the
position recorded at the previous tick by more than 1.5 seconds, and
record the current position in `lastCheckedTime`. -/
def seekCheckTick (s : SyncState) : SyncState × List Msg :=
  if !s.hasPlayer || !s.isPlayerReady || s.isSyncing then (s, [])
  else
    ({ s with lastCheckedTime := s.position },
      if rabs (s.position - s.lastCheckedTime) > 3/2 then handleSeek s else [])

/-- The local Player events inspected by the component: a player
state-change callback (with the wall-clock time `Date.now()` it reads),
a playback-rate-change callback, and one firing of the periodic
drift-detection poll. -/
inductive LocalEvent where
  | stateChange (e : YTState) (now : ℚ) : LocalEvent
  | rateChange : LocalEvent
  | pollTick : LocalEvent
deriving DecidableEq

/-- Dispatch of a local Player event to the corresponding handler of the
component. -/
def handleLocalEvent (s : SyncState) (ev : LocalEvent) : SyncState × List Msg :=
  match ev with
  | .stateChange e now => onPlayerStateChange s e now
  | .rateChange => (s, onPlaybackRateChange s)
  | .pollTick => seekCheckTick s

end VideoSyncV2

namespace VideoSyncV1

/-- The player-facing state of the earlier revision of
`VideoSync.vue` used by `syncPlayer`: the suppress-echo flag and the
observable player state. -/
structure PlayerState where
  hasPlayer : Bool
  isPlayerReady : Bool
  isSyncing : Bool
  position : ℚ
  rate : ℚ
  playing : Bool
deriving DecidableEq

/-- A mutation applied to the local YouTube player object. -/
inductive PlayerMutation where
  | setPlaybackRate (r : ℚ) : PlayerMutation
  | seekTo (t : ℚ) : PlayerMutation
  | setPaused (p : Bool) : PlayerMutation
deriving DecidableEq

/-- Payload of a `sync` snapshot as consumed by `syncPlayer`. -/
structure SyncMsgData where
  currentTime : ℚ
  playbackRate : ℚ
  paused : Bool
deriving DecidableEq

/-- Embedding of `syncPlayer` of the earlier revision of
`VideoSync.vue`: bail out when the player is absent, not ready, or a
suppression window is already open; otherwise set `isSyncing`, apply the
snapshot to the player — playback rate first, then a seek only when the
position differs by more than 1 second, then the paused/playing flag
only when it differs — and schedule the window to close after an 800 ms
settle delay. Returns the new state, the list of player mutations in
the order the code applies them, and the scheduled settle delay in
milliseconds (`none` when the message was ignored). -/
def syncPlayer (s : PlayerState) (d : SyncMsgData) : PlayerState × List PlayerMutation × Option Nat :=
  if !s.hasPlayer || !s.isPlayerReady || s.isSyncing then (s, [], none)
  else
    let timeDiff := rabs (s.position - d.currentTime)
    let isCurrentlyPaused := !s.playing
    let muts := [PlayerMutation.setPlaybackRate d.playbackRate]
      ++ (if timeDiff > 1 then [PlayerMutation.seekTo d.currentTime] else [])
      ++ (if d.paused != isCurrentlyPaused then [PlayerMutation.setPaused d.paused] else [])
    let s' := { s with
      isSyncing := true
      rate := d.playbackRate
      position := if timeDiff > 1 then d.currentTime else s.position
      playing := if d.paused != isCurrentlyPaused then !d.paused else s.playing }
    (s', muts, some 800)

end VideoSyncV1

/-- How the `_loadPromise` of a `PeerConnectionManager` eventually
settles: it is resolved by a successful `createRoom`/`joinRoom`
negotiation and rejected on signaling failure. -/
inductive PromiseOutcome where
  | resolves : PromiseOutcome
  | rejects : PromiseOutcome
deriving DecidableEq

/-- Observable outcome of a `send` call on a connection manager. -/
inductive SendOutcome where
  | deliveredAfterReady : SendOutcome
  | errorChannelNotOpen : SendOutcome
  | errorNotConnected : SendOutcome
  | errorHandshakeFailed : SendOutcome
deriving DecidableEq

namespace PeerServiceDrone

/-- Embedding of `send` of `src/utils/peerService.js`: the call first
does `await this._loadPromise` — a call made before the handshake
completes therefore suspends until the promise settles, it does not
throw. The outcome is a function of the promise's eventual outcome and
of whether the data channel is open once the await returns: a rejected
promise re-raises at the `await`; otherwise the message is delivered on
the data channel when it is open and a "Data channel is not open" error
is thrown when it is not. -/
def send (handshake : PromiseOutcome) (channelOpen : Bool) : SendOutcome :=
  match handshake with
  | .rejects => .errorHandshakeFailed
  | .resolves =>
      if channelOpen then .deliveredAfterReady else .errorChannelNotOpen

/-- Error thrown by the `members`-event body of `joinRoom`. -/
inductive JoinErr where
  | roomFull : JoinErr
deriving DecidableEq

/-- The action the `members`-event body of `joinRoom` performs when it
does not reject: `_startWebRTC(isOfferer)` with
`isOfferer = (members.length === 2)`. -/
inductive JoinStep where
  | startWebRTC (isOfferer : Bool) : JoinStep
deriving DecidableEq

/-- Embedding of the `room.on("members", ...)` handler inside `joinRoom`
of `src/utils/peerService.js`: when the reported member count exceeds 2
the promise is rejected with a "Room is full" error before any WebRTC
setup; otherwise `_startWebRTC` runs and the promise resolves. -/
def joinRoomOnMembers (memberCount : Nat) : Except JoinErr JoinStep :=
  if memberCount > 2 then .error .roomFull
  else .ok (.startWebRTC (memberCount == 2))

/-- Whether the `members` handler started a WebRTC session. -/
def webRTCStarted : Except JoinErr JoinStep → Bool
  | .ok _ => true
  | .error _ => false

/-- The nullable resources of the ScaleDrone `PeerConnectionManager`
that `close` releases (`true` models a non-null field), plus the fields
`close` leaves untouched. -/
structure EndpointState where
  dataChannel : Bool
  pc : Bool
  room : Bool
  drone : Bool
  roomId : Option String
deriving DecidableEq

/-- The external release actions `close` can perform. -/
inductive CloseAction where
  | closeDataChannel : CloseAction
  | closePC : CloseAction
  | removeRoomListeners : CloseAction
  | closeDrone : CloseAction
deriving DecidableEq

/-- Embedding of `close` of `src/utils/peerService.js`: for each of
`_dataChannel`, `_pc`, `_room`, `_drone` in turn, when the field is
non-null perform its release action and null the field. Returns the new
endpoint state and the release actions performed. -/
def close (s : EndpointState) : EndpointState × List CloseAction :=
  ({ s with dataChannel := false, pc := false, room := false, drone := false },
    (if s.dataChannel then [CloseAction.closeDataChannel] else [])
      ++ (if s.pc then [CloseAction.closePC] else [])
      ++ (if s.room then [CloseAction.removeRoomListeners] else [])
      ++ (if s.drone then [CloseAction.closeDrone] else []))

end PeerServiceDrone

namespace PeerServicePeerJS

/-- Embedding of `send` of the PeerJS `PeerConnectionManager` variant:
`send` throws "Not connected to a room" only when `this._peer` is null
(neither `createRoom` nor `joinRoom` created a peer); otherwise it does
`await this._loadPromise` — suspending, not throwing, when called before
the handshake completes — then forwards the payload to every entry of
the connection table. -/
def send (hasPeer : Bool) (handshake : PromiseOutcome) : SendOutcome :=
  if !hasPeer then .errorNotConnected
  else
    match handshake with
    | .rejects => .errorHandshakeFailed
    | .resolves => .deliveredAfterReady

end PeerServicePeerJS

namespace Chat

/-- The chat state of `src/components/Chat.vue`: the replicated message
sequence and the locally chosen display name. -/
structure ChatState where
  messages : List ChatMsg
  userName : String
deriving DecidableEq

/-- Embedding of `addMessage`: replace the sender by the local display
name when the sender is our own id and a name is set, then append the
entry to the local sequence. -/
def addMessage (s : ChatState) (selfId sender content : String) (now : Nat) : ChatState :=
  let displayName := if sender == selfId && s.userName != "" then s.userName else sender
  { s with messages := s.messages ++ [{ sender := displayName, content := content, timestamp := now }] }

/-- Embedding of the `peerService.on("connect", ...)` handler of
`Chat.vue`: when the local sequence is non-empty send one
`chat_history` snapshot of it; afterwards, when we are the host
(`peerService.getId() === props.roomId`), append the system welcome
message locally. -/
def onPeerConnect (s : ChatState) (selfId roomId : String) (now : Nat) : ChatState × List Msg :=
  let outs := if s.messages.length > 0 then [Msg.chatHistory s.messages] else []
  let s' :=
    if selfId == roomId then
      addMessage s selfId "System" "Welcome to your room! Share the URL to invite others." now
    else s
  (s', outs)

/-- Embedding of `handlePeerMessage` of `Chat.vue`: a `chat` message is
appended via `addMessage`; a `chat_history` snapshot replaces the local
sequence only when the local sequence is empty and the snapshot is
non-empty; all other messages are ignored by this component. -/
def handlePeerMessage (s : ChatState) (selfId : String) (now : Nat) (m : Msg) : ChatState :=
  match m with
  | .chat sender content => addMessage s selfId sender content now
  | .chatHistory msgs =>
      if s.messages.length = 0 ∧ 0 < msgs.length then { s with messages := msgs } else s
  | _ => s

end Chat

/-- A concrete `Synced` state whose suppression window is open
(`isSyncing = true`), used to witness the suppression theorems. -/
def suppressedState : VideoSyncV2.SyncState :=
  { isSyncing := true, position := 10, rate := 1, playing := true,
    lastSeekTime := 8, lastCheckedTime := 10, currentVideoId := some "abc123XYZ90",
    hasPlayer := true, isPlayerReady := true, isAPIReady := true }

/-- A concrete `Synced` state with the suppression window closed. -/
def openState : VideoSyncV2.SyncState :=
  { isSyncing := false, position := 10, rate := 1, playing := false,
    lastSeekTime := 8, lastCheckedTime := 10, currentVideoId := some "abc123XYZ90",
    hasPlayer := true, isPlayerReady := true, isAPIReady := true }

/-- A state whose position has drifted 10.5 s away from the position of
the last applied remote seek (`lastSeekTime = 0`) while staying within
0.5 s of the position recorded at the previous poll tick
(`lastCheckedTime = 10`). -/
def driftState : VideoSyncV2.SyncState :=
  { isSyncing := false, position := 21/2, rate := 1, playing := true,
    lastSeekTime := 0, lastCheckedTime := 10, currentVideoId := some "abc123XYZ90",
    hasPlayer := true, isPlayerReady := true, isAPIReady := true }

/-- A state two seconds past its previously polled position, used to
witness the drift-threshold theorem's emitting branch. -/
def driftedFarState : VideoSyncV2.SyncState :=
  { isSyncing := false, position := 12, rate := 1, playing := true,
    lastSeekTime := 0, lastCheckedTime := 10, currentVideoId := some "abc123XYZ90",
    hasPlayer := true, isPlayerReady := true, isAPIReady := true }

/-- The late joiner right after its player signalled ready: nothing
loaded locally, position 0, paused. -/
def lateJoinerState : VideoSyncV2.SyncState :=
  { isSyncing := false, position := 0, rate := 1, playing := false,
    lastSeekTime := 0, lastCheckedTime := 0, currentVideoId := none,
    hasPlayer := true, isPlayerReady := true, isAPIReady := true }

/-- The host's `video_info` reply for the late-join scenario: media M at
position 120 s, rate 1, not paused. -/
def hostReply : Msg := Msg.videoInfo "M" 120 1 false

/-- A synced state about to receive a fresh `video_info` snapshot for a
different media id. -/
def preSnapshotState : VideoSyncV2.SyncState :=
  { isSyncing := false, position := 7, rate := 1, playing := true,
    lastSeekTime := 0, lastCheckedTime := 7, currentVideoId := some "old12345678",
    hasPlayer := true, isPlayerReady := true, isAPIReady := true }

/-- Concrete earlier-revision player state used to witness the
`syncPlayer` ordering theorem. -/
def v1State : VideoSyncV1.PlayerState :=
  { hasPlayer := true, isPlayerReady := true, isSyncing := false,
    position := 3, rate := 1, playing := false }

/-- Concrete `sync` payload used to witness the `syncPlayer` ordering
theorem: 9 s ahead, double rate, playing. -/
def v1Data : VideoSyncV1.SyncMsgData :=
  { currentTime := 12, playbackRate := 2, paused := false }

/-- A chat state that already holds one locally authored message. -/
def chatNonEmpty : Chat.ChatState :=
  { messages := [{ sender := "alice", content := "hi", timestamp := 1 }],
    userName := "alice" }

/-- A chat state with an empty local sequence. -/
def chatEmpty : Chat.ChatState :=
  { messages := [], userName := "" }

/-- First incoming chat-history snapshot. -/
def snapshotX : List ChatMsg :=
  [{ sender := "bob", content := "yo", timestamp := 2 }]

/-- Second incoming chat-history snapshot, from a different peer. -/
def snapshotY : List ChatMsg :=
  [{ sender := "carol", content := "hey", timestamp := 3 },
   { sender := "carol", content := "there", timestamp := 4 }]

/-- C1: Echo suppression. While the suppression window is open
(`isSyncing = true`) every local Player event — state change, rate
change, drift-detection poll tick — produces no outbound message, and
applying any remote `play`/`pause`/`seek`/`speedChange` message never
produces an outbound message; hence any sequence of remote mutations
applied in `Synced` state is echoed zero times. -/
theorem echo_suppression (s : VideoSyncV2.SyncState) (ev : VideoSyncV2.LocalEvent)
    (m : Msg) (hs : s.isSyncing = true) (hm : m.isRemoteMutation = true) :
    (VideoSyncV2.handleLocalEvent s ev).2 = [] ∧
    (VideoSyncV2.handlePeerMessage s m).2 = [] := by
  constructor
  · cases ev with
    | stateChange e now =>
        simp [VideoSyncV2.handleLocalEvent, VideoSyncV2.onPlayerStateChange, hs]
    | rateChange =>
        simp [VideoSyncV2.handleLocalEvent, VideoSyncV2.onPlaybackRateChange, hs]
    | pollTick =>
        simp [VideoSyncV2.handleLocalEvent, VideoSyncV2.seekCheckTick, hs]
  · cases m <;> simp_all [VideoSyncV2.handlePeerMessage, Msg.isRemoteMutation]

/-- Witness for `echo_suppression` at the concrete suppressed state, a
poll-tick event and a remote `play` message. -/
theorem echo_suppression_witness :
    (VideoSyncV2.handleLocalEvent suppressedState VideoSyncV2.LocalEvent.pollTick).2 = [] ∧
    (VideoSyncV2.handlePeerMessage suppressedState Msg.play).2 = [] :=
  echo_suppression suppressedState VideoSyncV2.LocalEvent.pollTick Msg.play rfl rfl

/-- C9: while the suppression window is open, an inbound remote
mutation message is discarded entirely — the state (hence the player)
is unchanged and nothing is sent or deferred; consequently, of two
remote mutations arriving within one settle delay (no window close in
between), only the first takes effect. -/
theorem remote_mutation_suppression_window
    (s t : VideoSyncV2.SyncState) (m m1 m2 : Msg)
    (hm : m.isRemoteMutation = true) (ht : t.isSyncing = true)
    (h1 : m1.isRemoteMutation = true) (h2 : m2.isRemoteMutation = true)
    (hs : s.isSyncing = false) :
    VideoSyncV2.handlePeerMessage t m = (t, []) ∧
    VideoSyncV2.handlePeerMessage (VideoSyncV2.handlePeerMessage s m1).1 m2
      = ((VideoSyncV2.handlePeerMessage s m1).1, []) := by
  have key : ∀ (u : VideoSyncV2.SyncState) (mm : Msg), mm.isRemoteMutation = true →
      u.isSyncing = true → VideoSyncV2.handlePeerMessage u mm = (u, []) := by
    intro u mm hmm hu
    cases mm <;> simp_all [VideoSyncV2.handlePeerMessage, Msg.isRemoteMutation]
  have h1s : (VideoSyncV2.handlePeerMessage s m1).1.isSyncing = true := by
    cases m1 <;> simp_all [VideoSyncV2.handlePeerMessage, Msg.isRemoteMutation]
  exact ⟨key t m hm ht, key _ m2 h2 h1s⟩

/-- Witness for `remote_mutation_suppression_window`: a remote `pause`
hitting an open window is a no-op, and of a `seek 20` followed within
the window by a `pause`, only the seek takes effect. -/
theorem remote_mutation_suppression_window_witness :
    VideoSyncV2.handlePeerMessage suppressedState Msg.pause = (suppressedState, []) ∧
    VideoSyncV2.handlePeerMessage
        (VideoSyncV2.handlePeerMessage openState (Msg.seek 20)).1 Msg.pause
      = ((VideoSyncV2.handlePeerMessage openState (Msg.seek 20)).1, []) :=
  remote_mutation_suppression_window openState suppressedState Msg.pause
    (Msg.seek 20) Msg.pause rfl rfl rfl rfl rfl

/-- C10: a remote `seek` processed outside a suppression window always
sets the player playing (even when it was paused), mutates the position
only when the local position differs from the message time by more than
0.5 s, and sends nothing outbound. -/
theorem remote_seek_always_plays (s : VideoSyncV2.SyncState) (t : ℚ)
    (hs : s.isSyncing = false) :
    (VideoSyncV2.handlePeerMessage s (Msg.seek t)).1.playing = true ∧
    (VideoSyncV2.handlePeerMessage s (Msg.seek t)).1.position
      = (if rabs (s.position - t) > 1/2 then t else s.position) ∧
    (VideoSyncV2.handlePeerMessage s (Msg.seek t)).2 = [] := by
  simp [VideoSyncV2.handlePeerMessage, hs]

/-- Witness for `remote_seek_always_plays` at a paused state receiving
`seek 10.2`: playback resumes while the position (within 0.5 s of the
target) is left untouched. -/
theorem remote_seek_always_plays_witness :
    (VideoSyncV2.handlePeerMessage openState (Msg.seek (51/5))).1.playing = true ∧
    (VideoSyncV2.handlePeerMessage openState (Msg.seek (51/5))).1.position
      = (if rabs (openState.position - 51/5) > 1/2 then 51/5 else openState.position) ∧
    (VideoSyncV2.handlePeerMessage openState (Msg.seek (51/5))).2 = [] :=
  remote_seek_always_plays openState (51/5) rfl

/-- C3 counterexample: in `driftState` the local position is 10.5 s away
from the last remote-applied seek position (`lastSeekTime`), far beyond
the 1.5 s threshold, yet the drift-detection tick emits no `seek`,
because the code compares against the position recorded at the previous
poll tick (`lastCheckedTime`), not the last-synced remote position. -/
theorem drift_reference_cex :
    rabs (driftState.position - driftState.lastSeekTime) > 3/2 ∧
    (VideoSyncV2.seekCheckTick driftState).2 = [] := by
  constructor
  · norm_num [driftState, rabs]
  · norm_num [VideoSyncV2.seekCheckTick, VideoSyncV2.handleSeek, driftState, rabs]

/-- C3 amended: one drift-detection tick (player present and ready, no
suppression window) emits exactly one `seek` of the current position iff
the current position differs from the position recorded at the previous
tick by strictly more than T = 1.5 s (a difference of exactly T emits
nothing), and records the current position for the next tick. -/
theorem drift_threshold_tick (s : VideoSyncV2.SyncState)
    (hp : s.hasPlayer = true) (hr : s.isPlayerReady = true)
    (hs : s.isSyncing = false) :
    (VideoSyncV2.seekCheckTick s).2
      = (if rabs (s.position - s.lastCheckedTime) > 3/2 then [Msg.seek s.position] else []) ∧
    (VideoSyncV2.seekCheckTick s).1.lastCheckedTime = s.position := by
  simp [VideoSyncV2.seekCheckTick, VideoSyncV2.handleSeek, hp, hr, hs]

/-- Witness for `drift_threshold_tick` at a state 2 s past its
previously polled position: the tick emits exactly one `seek`. -/
theorem drift_threshold_tick_witness :
    (VideoSyncV2.seekCheckTick driftedFarState).2
      = (if rabs (driftedFarState.position - driftedFarState.lastCheckedTime) > 3/2
          then [Msg.seek driftedFarState.position] else []) ∧
    (VideoSyncV2.seekCheckTick driftedFarState).1.lastCheckedTime
      = driftedFarState.position :=
  drift_threshold_tick driftedFarState rfl rfl rfl

/-- C2: evaluation at the late-join failing input. The joiner (local
position 0, paused) processes the host's fresh
`video_info{M, 120, 1, paused := false}` reply: it adopts media M, but
its local player is left untouched — position stays 0 (more than one
threshold away from 120) and it stays paused — while the handler
instead broadcasts `speedChange`/`seek`/`play` messages to the peers,
contradicting its own comments ("Apply playback rate", "Seek to
position", "Set play/pause state"). -/
theorem late_join_video_info_bug :
    (VideoSyncV2.handlePeerMessage lateJoinerState hostReply).1.currentVideoId = some "M" ∧
    (VideoSyncV2.handlePeerMessage lateJoinerState hostReply).1.position = 0 ∧
    (VideoSyncV2.handlePeerMessage lateJoinerState hostReply).1.playing = false ∧
    (VideoSyncV2.handlePeerMessage lateJoinerState hostReply).2
      = [Msg.speedChange 1, Msg.seek 120, Msg.play] ∧
    ¬(rabs ((VideoSyncV2.handlePeerMessage lateJoinerState hostReply).1.position - 120) ≤ 3/2) := by
  refine ⟨by decide, by decide, by decide, by decide, ?_⟩
  norm_num [VideoSyncV2.handlePeerMessage, lateJoinerState, hostReply, rabs]

/-- C5 counterexample: a `video_info` snapshot processed in a synced
state leaves the suppress-echo flag false and the local player's
position, rate and playing flag unchanged, while sending a non-empty
batch of messages to the peers — the handler does not set suppress-echo
and does not mutate the local Player. -/
theorem video_info_no_suppress_cex :
    (VideoSyncV2.handlePeerMessage preSnapshotState (Msg.videoInfo "xyz" 50 2 true)).1.isSyncing = false ∧
    (VideoSyncV2.handlePeerMessage preSnapshotState (Msg.videoInfo "xyz" 50 2 true)).1.position
      = preSnapshotState.position ∧
    (VideoSyncV2.handlePeerMessage preSnapshotState (Msg.videoInfo "xyz" 50 2 true)).1.rate
      = preSnapshotState.rate ∧
    (VideoSyncV2.handlePeerMessage preSnapshotState (Msg.videoInfo "xyz" 50 2 true)).1.playing
      = preSnapshotState.playing ∧
    (VideoSyncV2.handlePeerMessage preSnapshotState (Msg.videoInfo "xyz" 50 2 true)).2 ≠ [] := by
  decide

/-- C5 amended: `syncPlayer` (the earlier-revision handler of a full
`sync` snapshot) sets suppress-echo true and applies the snapshot to the
local player as an ordered mutation list — playback rate first, then a
seek only when the positions differ by more than 1 s, then the
paused/playing flag only when it differs — scheduling the window to
close after an 800 ms (≥ 500 ms) settle delay; a `video_info` snapshot,
by contrast, never changes the suppress-echo flag. -/
theorem sync_snapshot_apply_order (s : VideoSyncV1.PlayerState)
    (d : VideoSyncV1.SyncMsgData)
    (hp : s.hasPlayer = true) (hr : s.isPlayerReady = true)
    (hs : s.isSyncing = false) :
    (VideoSyncV1.syncPlayer s d).1.isSyncing = true ∧
    (VideoSyncV1.syncPlayer s d).2.1
      = [VideoSyncV1.PlayerMutation.setPlaybackRate d.playbackRate]
        ++ (if rabs (s.position - d.currentTime) > 1
            then [VideoSyncV1.PlayerMutation.seekTo d.currentTime] else [])
        ++ (if d.paused != !s.playing
            then [VideoSyncV1.PlayerMutation.setPaused d.paused] else []) ∧
    (VideoSyncV1.syncPlayer s d).2.2 = some 800 ∧
    500 ≤ 800 ∧
    (∀ (t : VideoSyncV2.SyncState) (vid : String) (time r : ℚ) (p : Bool),
      (VideoSyncV2.handlePeerMessage t (Msg.videoInfo vid time r p)).1.isSyncing
        = t.isSyncing) := by
  refine ⟨?_, ?_, ?_, by norm_num, ?_⟩
  · simp [VideoSyncV1.syncPlayer, hp, hr, hs]
  · simp [VideoSyncV1.syncPlayer, hp, hr, hs]
  · simp [VideoSyncV1.syncPlayer, hp, hr, hs]
  · intro t vid time r p
    simp only [VideoSyncV2.handlePeerMessage]
    split <;> rfl

/-- Witness for `sync_snapshot_apply_order` at a paused player 9 s
behind a playing snapshot at double rate. -/
theorem sync_snapshot_apply_order_witness :
    (VideoSyncV1.syncPlayer v1State v1Data).1.isSyncing = true ∧
    (VideoSyncV1.syncPlayer v1State v1Data).2.1
      = [VideoSyncV1.PlayerMutation.setPlaybackRate v1Data.playbackRate]
        ++ (if rabs (v1State.position - v1Data.currentTime) > 1
            then [VideoSyncV1.PlayerMutation.seekTo v1Data.currentTime] else [])
        ++ (if v1Data.paused != !v1State.playing
            then [VideoSyncV1.PlayerMutation.setPaused v1Data.paused] else []) ∧
    (VideoSyncV1.syncPlayer v1State v1Data).2.2 = some 800 ∧
    500 ≤ 800 ∧
    (∀ (t : VideoSyncV2.SyncState) (vid : String) (time r : ℚ) (p : Bool),
      (VideoSyncV2.handlePeerMessage t (Msg.videoInfo vid time r p)).1.isSyncing
        = t.isSyncing) :=
  sync_snapshot_apply_order v1State v1Data rfl rfl rfl

/-- C4 counterexample: a `send` whose awaited load promise later
resolves (a call made before the handshake completed) is delivered after
readiness rather than failing with a not-connected error — in both the
ScaleDrone manager and the PeerJS variant (with a peer instance
present). -/
theorem send_before_ready_delivers_cex :
    PeerServiceDrone.send PromiseOutcome.resolves true = SendOutcome.deliveredAfterReady ∧
    PeerServicePeerJS.send true PromiseOutcome.resolves = SendOutcome.deliveredAfterReady ∧
    PeerServiceDrone.send PromiseOutcome.resolves true ≠ SendOutcome.errorNotConnected := by
  decide

/-- C4 amended: `send` awaits the connection-ready promise instead of
failing fast: it delivers exactly when the handshake eventually
completes (and, in the ScaleDrone manager, the data channel is open),
raising an error only on handshake failure, a non-open channel, or — in
the PeerJS variant — a missing peer instance; the ScaleDrone `send`
never raises a not-connected error at all. -/
theorem send_awaits_readiness (h : PromiseOutcome) (ch hp : Bool) :
    (PeerServiceDrone.send h ch = SendOutcome.deliveredAfterReady
      ↔ h = PromiseOutcome.resolves ∧ ch = true) ∧
    (PeerServicePeerJS.send hp h = SendOutcome.deliveredAfterReady
      ↔ hp = true ∧ h = PromiseOutcome.resolves) ∧
    PeerServiceDrone.send h ch ≠ SendOutcome.errorNotConnected := by
  cases h <;> cases ch <;> cases hp <;> decide

/-- C6: when the transport reports more than 2 members during a join,
the `members` handler rejects the `joinRoom` promise with the
room-full error and no WebRTC session is started. -/
theorem join_room_full_rejects (n : Nat) (h : n > 2) :
    PeerServiceDrone.joinRoomOnMembers n
      = Except.error PeerServiceDrone.JoinErr.roomFull ∧
    PeerServiceDrone.webRTCStarted (PeerServiceDrone.joinRoomOnMembers n) = false := by
  unfold PeerServiceDrone.joinRoomOnMembers
  rw [if_pos h]
  exact ⟨rfl, rfl⟩

/-- Witness for `join_room_full_rejects` at a reported member count of
3. -/
theorem join_room_full_rejects_witness :
    PeerServiceDrone.joinRoomOnMembers 3
      = Except.error PeerServiceDrone.JoinErr.roomFull ∧
    PeerServiceDrone.webRTCStarted (PeerServiceDrone.joinRoomOnMembers 3) = false :=
  join_room_full_rejects 3 (by norm_num)

/-- C7: chat history first-snapshot-wins. A peer with a non-empty local
sequence sends exactly one `chat_history` snapshot on connect while a
peer with an empty sequence sends none; a peer with a non-empty
sequence ignores every incoming snapshot; and a peer with an empty
sequence that receives two (protocol-generated, hence non-empty)
snapshots in turn ends up holding exactly the first. -/
theorem chat_history_first_snapshot_wins
    (s e : Chat.ChatState) (selfId roomId : String) (now now1 now2 : Nat)
    (snap1 snap2 : List ChatMsg)
    (hne : s.messages ≠ []) (he : e.messages = [])
    (h1 : snap1 ≠ []) (h2 : snap2 ≠ []) :
    (Chat.onPeerConnect s selfId roomId now).2 = [Msg.chatHistory s.messages] ∧
    (Chat.onPeerConnect e selfId roomId now).2 = [] ∧
    Chat.handlePeerMessage s selfId now1 (Msg.chatHistory snap1) = s ∧
    (Chat.handlePeerMessage
        (Chat.handlePeerMessage e selfId now1 (Msg.chatHistory snap1))
        selfId now2 (Msg.chatHistory snap2)).messages = snap1 := by
  have hlen : 0 < s.messages.length := List.length_pos.mpr hne
  have hlen1 : 0 < snap1.length := List.length_pos.mpr h1
  have he0 : e.messages.length = 0 := by simp [he]
  have hadopt : Chat.handlePeerMessage e selfId now1 (Msg.chatHistory snap1)
      = { e with messages := snap1 } := by
    simp [Chat.handlePeerMessage, he0, hlen1]
  refine ⟨?_, ?_, ?_, ?_⟩
  · simp [Chat.onPeerConnect, hlen]
  · simp [Chat.onPeerConnect, he0]
  · simp [Chat.handlePeerMessage, hne]
  · rw [hadopt]
    simp [Chat.handlePeerMessage, h1]

/-- Witness for `chat_history_first_snapshot_wins` on concrete states
and two concrete non-empty snapshots. -/
theorem chat_history_first_snapshot_wins_witness :
    (Chat.onPeerConnect chatNonEmpty "p1" "p1" 5).2
      = [Msg.chatHistory chatNonEmpty.messages] ∧
    (Chat.onPeerConnect chatEmpty "p1" "p1" 5).2 = [] ∧
    Chat.handlePeerMessage chatNonEmpty "p1" 6 (Msg.chatHistory snapshotX) = chatNonEmpty ∧
    (Chat.handlePeerMessage
        (Chat.handlePeerMessage chatEmpty "p1" 6 (Msg.chatHistory snapshotX))
        "p1" 7 (Msg.chatHistory snapshotY)).messages = snapshotX :=
  chat_history_first_snapshot_wins chatNonEmpty chatEmpty "p1" "p1" 5 6 7
    snapshotX snapshotY (by decide) (by decide) (by decide) (by decide)

/-- C8: `close` is idempotent — after one `close` every releasable
resource is null, so a second `close` leaves the endpoint state exactly
as the first left it and performs no release action (and the code path
contains nothing that can raise). -/
theorem close_idempotent (s : PeerServiceDrone.EndpointState) :
    (PeerServiceDrone.close (PeerServiceDrone.close s).1).1
      = (PeerServiceDrone.close s).1 ∧
    (PeerServiceDrone.close (PeerServiceDrone.close s).1).2 = [] := by
  simp [PeerServiceDrone.close]

end YTogether
